import Mathlib

/-!
Shallow embedding of `ai-copilot/fallback_system.py` (QBTC fallback and
error-recovery system): circuit breaker, component registry, failure
history, execution guard with fallbacks, recovery chains, health
monitoring cycle and the uptime metric.

Conventions of the embedding:
* timestamps and durations are exact rationals (seconds);
* a wrapped async operation is represented by its outcome (`CallOutcome`),
  and the breaker's `call` additionally reports whether the operation was
  actually invoked;
* Python exceptions are represented by their message string; the breaker's
  fail-fast rejection carries the message "Circuit breaker is OPEN"
  exactly as raised by the source.
-/

deriving instance DecidableEq for Except

namespace Fallback

/-- The `CircuitBreakerState` enum: CLOSED / OPEN / HALF_OPEN. -/
inductive CircuitBreakerState where
  | closed
  | open_
  | halfOpen
deriving DecidableEq, Repr

/-- The `CircuitBreaker` object: configuration constants plus mutable state,
mirroring `CircuitBreaker.__init__`. -/
structure CircuitBreaker where
  failure_threshold : Nat := 5
  recovery_timeout : ℚ := 60
  success_threshold : Nat := 3
  state : CircuitBreakerState := .closed
  failure_count : Nat := 0
  success_count : Nat := 0
  last_failure_time : Option ℚ := none
deriving DecidableEq, Repr

/-- Outcome of the wrapped zero-argument operation: it either returns a
value or raises an exception with a message. -/
inductive CallOutcome (α : Type) where
  | success (a : α)
  | failure (msg : String)
deriving DecidableEq, Repr

/-- Result of `CircuitBreaker.call`: the returned value or raised
exception, the breaker's new state, and whether the wrapped operation was
invoked at all. -/
structure CallResult (α : Type) where
  result : Except String α
  breaker : CircuitBreaker
  invoked : Bool
deriving DecidableEq, Repr

/-- Embedding of `CircuitBreaker._record_failure`. -/
def CircuitBreaker.record_failure (cb : CircuitBreaker) (now : ℚ) : CircuitBreaker :=
  let cb := { cb with failure_count := cb.failure_count + 1, last_failure_time := some now }
  if cb.failure_count ≥ cb.failure_threshold then { cb with state := .open_ } else cb

/-- Embedding of `CircuitBreaker._should_attempt_reset`. -/
def CircuitBreaker.should_attempt_reset (cb : CircuitBreaker) (now : ℚ) : Bool :=
  match cb.last_failure_time with
  | none => true
  | some t => now - t ≥ cb.recovery_timeout

/-- Embedding of `CircuitBreaker._reset`. -/
def CircuitBreaker.reset (cb : CircuitBreaker) : CircuitBreaker :=
  { cb with state := .closed, failure_count := 0, success_count := 0, last_failure_time := none }

/-- The body of `CircuitBreaker.call` from the `try` block on: invoke the
operation and do the success/failure bookkeeping. -/
def CircuitBreaker.invoke (cb : CircuitBreaker) (now : ℚ) (op : CallOutcome α) :
    CallResult α :=
  match op with
  | .success a =>
    let cb' :=
      if cb.state = .halfOpen then
        let cb1 := { cb with success_count := cb.success_count + 1 }
        if cb1.success_count ≥ cb1.success_threshold then cb1.reset else cb1
      else
        { cb with failure_count := 0 }
    { result := .ok a, breaker := cb', invoked := true }
  | .failure msg =>
    { result := .error msg, breaker := cb.record_failure now, invoked := true }

/-- Embedding of `CircuitBreaker.call`: fail fast while OPEN and the recovery timeout
has not elapsed, otherwise (possibly after moving to HALF_OPEN) invoke
the operation. -/
def CircuitBreaker.call (cb : CircuitBreaker) (now : ℚ) (op : CallOutcome α) :
    CallResult α :=
  if cb.state = .open_ then
    if cb.should_attempt_reset now then
      CircuitBreaker.invoke { cb with state := .halfOpen, success_count := 0 } now op
    else
      { result := .error "Circuit breaker is OPEN", breaker := cb, invoked := false }
  else
    cb.invoke now op

/-- Fold a sequence of calls whose operations all fail, at the given
sequence of times. -/
def applyFailingCalls (cb : CircuitBreaker) (ts : List ℚ) : CircuitBreaker :=
  ts.foldl (fun b t => (b.call t (CallOutcome.failure "err" : CallOutcome Unit)).breaker) cb

/-- Fold an arbitrary trace of timed call outcomes through the breaker. -/
def runTrace (cb : CircuitBreaker) (events : List (ℚ × CallOutcome Unit)) :
    CircuitBreaker :=
  events.foldl (fun b e => (b.call e.1 e.2).breaker) cb

/-- The `SystemStatus` enum. -/
inductive SystemStatus where
  | healthy
  | degraded
  | critical
  | failed
  | recovering
deriving DecidableEq, Repr

/-- The `ComponentStatus` enum. -/
inductive ComponentStatus where
  | active
  | standby
  | failed
  | recovering
  | maintenance
deriving DecidableEq, Repr

/-- The `FailureType` enum. -/
inductive FailureType where
  | network_error
  | api_error
  | data_corruption
  | timeout
  | resource_exhaustion
  | configuration_error
  | unknown
deriving DecidableEq, Repr

/-- The `HealthMetrics` dataclass. -/
structure HealthMetrics where
  response_time : ℚ := 0
  error_rate : ℚ := 0
  success_rate : ℚ := 1
  uptime_percentage : ℚ := 100
  last_success : Option ℚ := none
  last_failure : Option ℚ := none
  consecutive_failures : Nat := 0
  total_requests : Nat := 0
  successful_requests : Nat := 0
deriving DecidableEq, Repr

/-- The `ComponentState` dataclass.  The `metadata` dict is used by the source
only for the optional `health_check` and `recovery_func` callables; since
callables live outside the state, the embedding keeps their presence as
flags (their outcomes are supplied to the operations that invoke them). -/
structure ComponentState where
  name : String
  status : ComponentStatus
  health_metrics : HealthMetrics := {}
  last_check : Option ℚ := none
  failover_count : Nat := 0
  recovery_attempts : Nat := 0
  has_health_check : Bool := false
  has_recovery_func : Bool := false
deriving DecidableEq, Repr

/-- The `FailureEvent` dataclass. -/
structure FailureEvent where
  component : String
  failure_type : FailureType
  timestamp : ℚ
  error_message : String
  severity : String
  recovery_action : Option String := none
  resolved : Bool := false
  resolution_time : Option ℚ := none
deriving DecidableEq, Repr

/-- The mutable state of a `FallbackSystem` object.  The `components` and
`circuit_breakers` dicts become association lists keyed by component name
(Python dicts preserve insertion order). -/
structure FallbackSystem where
  components : List (String × ComponentState) := []
  failure_history : List FailureEvent := []
  circuit_breakers : List (String × CircuitBreaker) := []
  health_check_interval : ℚ := 30
  max_recovery_attempts : Nat := 3
  failover_timeout : ℚ := 60
deriving DecidableEq, Repr

/-- In-place update of the value stored under a key of an association
list (the embedding of mutating `self.components[name]` in place). -/
def updateAssoc (k : String) (f : β → β) : List (String × β) → List (String × β)
  | [] => []
  | (k', v) :: rest =>
    if k' = k then (k', f v) :: rest else (k', v) :: updateAssoc k f rest

/-- Embedding of `FallbackSystem._initialize_critical_components`, run by the
constructor: seven STANDBY components, each with a default breaker. -/
def critical_components : List String :=
  ["binance_api", "websocket_stream", "data_cache", "data_validator",
   "historical_data", "market_analyzer", "alerts_system"]

/-- The state of a freshly constructed `FallbackSystem()`. -/
def FallbackSystem.init : FallbackSystem :=
  { components := critical_components.map
      (fun n => (n, { name := n, status := ComponentStatus.standby }))
    circuit_breakers := critical_components.map (fun n => (n, {})) }

/-- Embedding of `FallbackSystem.report_component_failure` (observers and the
fire-and-forget recovery task are modelled separately). -/
def FallbackSystem.report_component_failure (sys : FallbackSystem) (now : ℚ)
    (component_name : String) (failure_type : FailureType)
    (error_message : String) (severity : String := "error") : FallbackSystem :=
  let failure_event : FailureEvent :=
    { component := component_name, failure_type := failure_type,
      timestamp := now, error_message := error_message, severity := severity }
  let sys := { sys with failure_history := sys.failure_history ++ [failure_event] }
  let upd : ComponentState → ComponentState := fun c =>
    { c with
      status := ComponentStatus.failed,
      health_metrics := { c.health_metrics with
        consecutive_failures := c.health_metrics.consecutive_failures + 1,
        last_failure := some failure_event.timestamp } }
  if (sys.components.lookup component_name).isSome then
    { sys with components := updateAssoc component_name upd sys.components }
  else sys

/-- The scan inside `report_component_recovery`: mark the first unresolved
event of the component as resolved and stop (the `break`). -/
def resolveFirst (name : String) (now : ℚ) : List FailureEvent → List FailureEvent
  | [] => []
  | e :: rest =>
    if e.component = name ∧ ¬ e.resolved then
      { e with resolved := true, resolution_time := some now } :: rest
    else
      e :: resolveFirst name now rest

/-- Embedding of `FallbackSystem.report_component_recovery` (observer modelled away). -/
def FallbackSystem.report_component_recovery (sys : FallbackSystem) (now : ℚ)
    (component_name : String) : FallbackSystem :=
  let upd : ComponentState → ComponentState := fun c =>
    { c with
      status := ComponentStatus.active,
      health_metrics := { c.health_metrics with
        consecutive_failures := 0,
        last_success := some now } }
  if (sys.components.lookup component_name).isSome then
    { sys with
      components := updateAssoc component_name upd sys.components,
      failure_history := resolveFirst component_name now sys.failure_history }
  else sys

/-- Embedding of `FallbackSystem._update_component_health`. -/
def FallbackSystem.update_component_health (sys : FallbackSystem) (now : ℚ)
    (component_name : String) (success : Bool) : FallbackSystem :=
  match sys.components.lookup component_name with
  | none => sys
  | some _ =>
    let upd : ComponentState → ComponentState := fun c =>
      let m := c.health_metrics
      let m := { m with total_requests := m.total_requests + 1 }
      let m :=
        if success then
          { m with successful_requests := m.successful_requests + 1,
                   last_success := some now, consecutive_failures := 0 }
        else
          { m with last_failure := some now,
                   consecutive_failures := m.consecutive_failures + 1 }
      let m :=
        if m.total_requests > 0 then
          let sr : ℚ := (m.successful_requests : ℚ) / (m.total_requests : ℚ)
          { m with success_rate := sr, error_rate := 1 - sr }
        else m
      { c with health_metrics := m }
    { sys with components := updateAssoc component_name upd sys.components }

/-- The fallback scan of `execute_with_fallback`: invoke the fallbacks in
order and return the result of the first one that succeeds. -/
def firstFallbackSuccess : List (CallOutcome α) → Option α
  | [] => none
  | .success a :: _ => some a
  | .failure _ :: rest => firstFallbackSuccess rest

/-- Embedding of `FallbackSystem.execute_with_fallback`.  The primary and the fallbacks
are represented by their outcomes; the pair returned is (raised-or-value,
new system state). -/
def FallbackSystem.execute_with_fallback (sys : FallbackSystem) (now : ℚ)
    (primary_func : CallOutcome α) (fallback_funcs : List (CallOutcome α))
    (component_name : String) : Except String α × FallbackSystem :=
  match sys.circuit_breakers.lookup component_name with
  | some circuit_breaker =>
    let r := circuit_breaker.call now primary_func
    let breakers := updateAssoc component_name (fun _ => r.breaker) sys.circuit_breakers
    let sys := { sys with circuit_breakers := breakers }
    match r.result with
    | .ok v => (.ok v, sys.update_component_health now component_name true)
    | .error e =>
      match firstFallbackSuccess fallback_funcs with
      | some v => (.ok v, sys.update_component_health now component_name true)
      | none =>
        (.error e, sys.report_component_failure now component_name
          FailureType.unknown ("All functions failed: " ++ e))
  | none =>
    match primary_func with
    | .success a => (.ok a, sys)
    | .failure e => (.error e, sys)

/-- Stable insertion by timestamp (the embedding of Python's stable
`sorted(..., key=lambda x: x.timestamp)`). -/
def insertByTimestamp (e : FailureEvent) : List FailureEvent → List FailureEvent
  | [] => [e]
  | x :: xs =>
    if e.timestamp ≤ x.timestamp then e :: x :: xs else x :: insertByTimestamp e xs

/-- Stable sort of the failure history by timestamp. -/
def sortByTimestamp : List FailureEvent → List FailureEvent
  | [] => []
  | x :: xs => insertByTimestamp x (sortByTimestamp xs)

/-- The downtime-accumulation loop of `_calculate_uptime_percentage`:
walk the sorted events carrying `current_downtime_start` and the
accumulated `downtime`.  (On a resolved event the source subtracts
`resolution_time`, which is always set on events resolved by
`report_component_recovery`; a missing value is read as 0.) -/
def downtimeLoop : List FailureEvent → Option ℚ → ℚ → ℚ
  | [], _, downtime => downtime
  | f :: rest, current_downtime_start, downtime =>
    if ¬ f.resolved ∧ current_downtime_start = none then
      downtimeLoop rest (some f.timestamp) downtime
    else if f.resolved ∧ current_downtime_start.isSome then
      downtimeLoop rest none
        (downtime + (f.resolution_time.getD 0 - current_downtime_start.getD 0))
    else
      downtimeLoop rest current_downtime_start downtime

/-- Embedding of `FallbackSystem._calculate_uptime_percentage`. -/
def FallbackSystem.calculate_uptime_percentage (sys : FallbackSystem) (now : ℚ) : ℚ :=
  match sys.failure_history with
  | [] => 100
  | f0 :: rest =>
    let first_event := (rest.map (·.timestamp)).foldl min f0.timestamp
    let total_time := now - first_event
    if total_time ≤ 0 then 100
    else
      let downtime := downtimeLoop (sortByTimestamp sys.failure_history) none 0
      let uptime_percentage := ((total_time - downtime) / total_time) * 100
      max 0 (min 100 uptime_percentage)

/-- The scalar part of the dict returned by
`FallbackSystem.get_system_health` (the `component_details` sub-dict is
derived one-to-one from `components` and not replicated here). -/
structure SystemHealth where
  overall_status : SystemStatus
  health_score : ℚ
  total_components : Nat
  active_components : Nat
  failed_components : Nat
  recent_failures : Nat
  uptime_percentage : ℚ
deriving DecidableEq, Repr

/-- Embedding of `FallbackSystem.get_system_health`. -/
def FallbackSystem.get_system_health (sys : FallbackSystem) (now : ℚ) : SystemHealth :=
  let total_components := sys.components.length
  let failed_components :=
    (sys.components.filter (fun c => c.2.status = ComponentStatus.failed)).length
  let active_components :=
    (sys.components.filter (fun c => c.2.status = ComponentStatus.active)).length
  let health_score : ℚ :=
    if total_components > 0 then
      ((active_components : ℚ) / (total_components : ℚ)) * 100
    else 0
  let overall_status :=
    if failed_components = 0 then SystemStatus.healthy
    else if (failed_components : ℚ) / (total_components : ℚ) > 1/2 then SystemStatus.critical
    else if failed_components > 0 then SystemStatus.degraded
    else SystemStatus.healthy
  let recent_failures :=
    (sys.failure_history.filter (fun f => now - f.timestamp < 3600)).length
  { overall_status := overall_status, health_score := health_score,
    total_components := total_components, active_components := active_components,
    failed_components := failed_components, recent_failures := recent_failures,
    uptime_percentage := sys.calculate_uptime_percentage now }

/-- Outcome of one invocation of a component's recovery callable. -/
inductive RecoveryOutcome where
  | success
  | failure
  | raised
deriving DecidableEq, Repr

/-- Result of one entry into `_attempt_recovery`: either the chain ends
here, or it schedules another attempt.  `invoked` records whether the
recovery callable was invoked during this entry. -/
inductive StepOutcome where
  | done (sys : FallbackSystem) (invoked : Bool)
  | retry (sys : FallbackSystem)
deriving DecidableEq, Repr

/-- One entry into `FallbackSystem._attempt_recovery`: increment
`recovery_attempts`, abandon past the cap, otherwise (when a recovery
callable is attached) set RECOVERING and invoke it; success reports
recovery and clears the counter, failure or an exception schedules a
retry. -/
def FallbackSystem.attempt_recovery_step (sys : FallbackSystem) (now : ℚ)
    (component_name : String) (outcome : RecoveryOutcome) : StepOutcome :=
  match sys.components.lookup component_name with
  | none => .done sys false
  | some component =>
    let bump : ComponentState → ComponentState := fun c =>
      { c with recovery_attempts := c.recovery_attempts + 1 }
    let sys := { sys with components := updateAssoc component_name bump sys.components }
    if component.recovery_attempts + 1 > sys.max_recovery_attempts then
      .done sys false
    else if component.has_recovery_func then
      let markRecovering : ComponentState → ComponentState := fun c =>
        { c with status := ComponentStatus.recovering }
      let comps := updateAssoc component_name markRecovering sys.components
      let sys := { sys with components := comps }
      match outcome with
      | .success =>
        let sys := sys.report_component_recovery now component_name
        let clearAttempts : ComponentState → ComponentState := fun c =>
          { c with recovery_attempts := 0 }
        let comps := updateAssoc component_name clearAttempts sys.components
        let sys := { sys with components := comps }
        .done sys true
      | .failure => .retry sys
      | .raised => .retry sys
    else
      .done sys false

/-- The sequential recovery chain spawned by one failure report: repeated
entries into `_attempt_recovery`, the k-th invocation of the recovery
callable producing `outcomes k`.  Returns the final system state and the
number of times the recovery callable was invoked.  `fuel` bounds the
recursion; `recovery_chain` below supplies enough fuel for the cap logic
to be the one that stops the chain. -/
def attemptRecoveryChain (now : ℚ) (component_name : String)
    (outcomes : Nat → RecoveryOutcome) :
    Nat → Nat → FallbackSystem → FallbackSystem × Nat
  | 0, _, sys => (sys, 0)
  | fuel + 1, k, sys =>
    match sys.attempt_recovery_step now component_name (outcomes k) with
    | .done sys' invoked => (sys', if invoked then 1 else 0)
    | .retry sys' =>
      let r := attemptRecoveryChain now component_name outcomes fuel (k + 1) sys'
      (r.1, r.2 + 1)

/-- A full recovery chain started by a single failure report. -/
def FallbackSystem.recovery_chain (sys : FallbackSystem) (now : ℚ)
    (component_name : String) (outcomes : Nat → RecoveryOutcome) :
    FallbackSystem × Nat :=
  attemptRecoveryChain now component_name outcomes
    (sys.max_recovery_attempts + 1) 0 sys

/-- Result of one health-check invocation in the monitoring loop. -/
inductive HealthResult where
  | healthy
  | unhealthy
  | raised
deriving DecidableEq, Repr

/-- The body of the `_health_monitoring_loop` cycle for one component:
skip components without a health check; a raising health check leaves the
component untouched; otherwise stamp `last_check` and translate the
result into a failure or recovery report when the status calls for it. -/
def FallbackSystem.health_check_component (sys : FallbackSystem) (now : ℚ)
    (results : String → HealthResult) (component_name : String) : FallbackSystem :=
  match sys.components.lookup component_name with
  | none => sys
  | some component =>
    if component.has_health_check then
      match results component_name with
      | .raised => sys
      | r =>
        let stamp : ComponentState → ComponentState := fun c =>
          { c with last_check := some now }
        let comps := updateAssoc component_name stamp sys.components
        let sys := { sys with components := comps }
        if r = .healthy ∧ component.status = ComponentStatus.failed then
          sys.report_component_recovery now component_name
        else if r = .unhealthy ∧ component.status = ComponentStatus.active then
          sys.report_component_failure now component_name FailureType.unknown
            "Health check failed" "warning"
        else
          sys
    else
      sys

/-- One full cycle of `_health_monitoring_loop`: process every registered
component in insertion order. -/
def FallbackSystem.health_monitoring_cycle (sys : FallbackSystem) (now : ℚ)
    (results : String → HealthResult) : FallbackSystem :=
  (sys.components.map (·.1)).foldl
    (fun s n => s.health_check_component now results n) sys

/-- Marking a failure event resolved at a given time, as
`report_component_recovery` does to the first matching entry. -/
def markResolved (now : ℚ) (e : FailureEvent) : FailureEvent :=
  { e with resolved := true, resolution_time := some now }

/-- The uptime percentage as the specification describes it: for a
non-empty history, walk the events sorted by timestamp maintaining the
single global downtime window and return
`clamp ((total_time - downtime) / total_time * 100) [0, 100]` — with no
guard on `total_time` (the source additionally returns 100.0 when
`total_time <= 0`). -/
def uptime_percentage_claimed (sys : FallbackSystem) (now : ℚ) : ℚ :=
  match sys.failure_history with
  | [] => 100
  | f0 :: rest =>
    let first_event := (rest.map (·.timestamp)).foldl min f0.timestamp
    let total_time := now - first_event
    let downtime := downtimeLoop (sortByTimestamp sys.failure_history) none 0
    max 0 (min 100 (((total_time - downtime) / total_time) * 100))

/-- A minimal registered system used by concrete witnesses: one component
"c" in STANDBY with a default breaker. -/
def sampleSystem : FallbackSystem :=
  { components := [("c", { name := "c", status := ComponentStatus.standby })],
    circuit_breakers := [("c", {})] }

/-- Sample failure events for component "c", used by concrete witnesses. -/
def sampleEventX : FailureEvent :=
  { component := "c", failure_type := FailureType.unknown, timestamp := 1,
    error_message := "x", severity := "error" }

def sampleEventY : FailureEvent :=
  { component := "c", failure_type := FailureType.unknown, timestamp := 2,
    error_message := "y", severity := "error" }

/-- A one-component system with an attached recovery callable, in FAILED
state, used by concrete witnesses of the recovery chain. -/
def sampleRecoveryComponent : ComponentState :=
  { name := "c", status := ComponentStatus.failed, has_recovery_func := true }

def sampleRecoverySystem : FallbackSystem :=
  { components := [("c", sampleRecoveryComponent)],
    circuit_breakers := [("c", {})] }

/-- A one-component system with an attached health check, used by
concrete witnesses of the monitoring cycle. -/
def sampleMonitorComponent : ComponentState :=
  { name := "c", status := ComponentStatus.standby, has_health_check := true }

def sampleMonitorSystem : FallbackSystem :=
  { components := [("c", sampleMonitorComponent)],
    circuit_breakers := [("c", {})] }

/-- An unresolved failure at time 0 and a failure resolved at time 60,
used by concrete uptime computations. -/
def sampleOpenEvent : FailureEvent :=
  { component := "c", failure_type := FailureType.unknown, timestamp := 0,
    error_message := "down", severity := "error" }

def sampleCloseEvent : FailureEvent :=
  { component := "c", failure_type := FailureType.unknown, timestamp := 50,
    error_message := "up", severity := "error", resolved := true,
    resolution_time := some 60 }

/-! ### Association-list lemmas -/

theorem lookup_updateAssoc_self (k : String) (f : β → β) (l : List (String × β)) :
    (updateAssoc k f l).lookup k = (l.lookup k).map f := by
  induction l with
  | nil => rfl
  | cons x xs ih =>
    obtain ⟨k', v⟩ := x
    by_cases h : k' = k
    · subst h
      simp [updateAssoc, List.lookup]
    · have hb : (k == k') = false := beq_eq_false_iff_ne.mpr (fun hh => h hh.symm)
      simp [updateAssoc, List.lookup, h, ih, hb]

theorem lookup_updateAssoc_ne (k k' : String) (f : β → β) (l : List (String × β))
    (h : k' ≠ k) : (updateAssoc k f l).lookup k' = l.lookup k' := by
  induction l with
  | nil => rfl
  | cons x xs ih =>
    obtain ⟨ka, v⟩ := x
    by_cases hk : ka = k
    · subst hk
      have hb : (k' == ka) = false := beq_eq_false_iff_ne.mpr h
      simp [updateAssoc, List.lookup, hb]
    · simp [updateAssoc, List.lookup, hk, ih]

/-! ### CircuitBreaker single-call lemmas -/

/-- A failing call from CLOSED: the failure is recorded, and the breaker
either stays CLOSED strictly below the threshold or moves to OPEN at or
above it. -/
theorem call_closed_failure (cb : CircuitBreaker) (t : ℚ) (msg : String)
    (h : cb.state = CircuitBreakerState.closed) :
    ((cb.call t (CallOutcome.failure msg : CallOutcome Unit)).breaker.failure_threshold
        = cb.failure_threshold) ∧
    ((cb.call t (CallOutcome.failure msg : CallOutcome Unit)).breaker.failure_count
        = cb.failure_count + 1) ∧
    (((cb.call t (CallOutcome.failure msg : CallOutcome Unit)).breaker.state
        = CircuitBreakerState.closed ∧ cb.failure_count + 1 < cb.failure_threshold) ∨
     ((cb.call t (CallOutcome.failure msg : CallOutcome Unit)).breaker.state
        = CircuitBreakerState.open_ ∧ cb.failure_threshold ≤ cb.failure_count + 1)) := by
  simp only [CircuitBreaker.call, CircuitBreaker.invoke, CircuitBreaker.record_failure, h]
  split_ifs with h1 h2 <;> simp_all <;> omega

/-- A failing call from a state that is OPEN with the failure count at or
above the threshold (as every reachable OPEN state is) leaves the breaker
OPEN with the count still at or above the threshold. -/
theorem call_open_failure (cb : CircuitBreaker) (t : ℚ) (msg : String)
    (h : cb.state = CircuitBreakerState.open_)
    (hc : cb.failure_threshold ≤ cb.failure_count) :
    ((cb.call t (CallOutcome.failure msg : CallOutcome Unit)).breaker.failure_threshold
        = cb.failure_threshold) ∧
    ((cb.call t (CallOutcome.failure msg : CallOutcome Unit)).breaker.state
        = CircuitBreakerState.open_) ∧
    (cb.failure_threshold ≤
      (cb.call t (CallOutcome.failure msg : CallOutcome Unit)).breaker.failure_count) := by
  simp only [CircuitBreaker.call, CircuitBreaker.invoke, CircuitBreaker.record_failure, h]
  split_ifs with h1 h2 <;> simp_all <;> omega

theorem applyFailingCalls_cons (cb : CircuitBreaker) (t : ℚ) (ts : List ℚ) :
    applyFailingCalls cb (t :: ts) =
      applyFailingCalls ((cb.call t (CallOutcome.failure "err" : CallOutcome Unit)).breaker) ts :=
  rfl

/-- Failing calls never close an OPEN breaker whose count has reached the
threshold. -/
theorem applyFailingCalls_open (ts : List ℚ) :
    ∀ cb : CircuitBreaker, cb.state = CircuitBreakerState.open_ →
      cb.failure_threshold ≤ cb.failure_count →
      (applyFailingCalls cb ts).state = CircuitBreakerState.open_ ∧
      (applyFailingCalls cb ts).failure_threshold ≤ (applyFailingCalls cb ts).failure_count := by
  induction ts with
  | nil => intro cb h hc; exact ⟨h, hc⟩
  | cons t ts ih =>
    intro cb h hc
    obtain ⟨hth, hst, hcnt⟩ := call_open_failure cb t "err" h hc
    rw [applyFailingCalls_cons]
    exact ih _ hst (hth ▸ hcnt)

/-- From CLOSED, enough consecutive failing calls always end in OPEN. -/
theorem applyFailingCalls_opens (ts : List ℚ) :
    ∀ cb : CircuitBreaker, cb.state = CircuitBreakerState.closed →
      cb.failure_threshold ≤ cb.failure_count + ts.length → ts ≠ [] →
      (applyFailingCalls cb ts).state = CircuitBreakerState.open_ := by
  induction ts with
  | nil => intro cb _ _ hne; exact absurd rfl hne
  | cons t ts ih =>
    intro cb h hlen _
    obtain ⟨hth, hcnt, hcase⟩ := call_closed_failure cb t "err" h
    rw [applyFailingCalls_cons]
    rcases hcase with ⟨hst, hlt⟩ | ⟨hst, hge⟩
    · have hne : ts ≠ [] := by
        intro he
        subst he
        simp at hlen
        omega
      refine ih _ hst ?_ hne
      rw [hth, hcnt]
      simp only [List.length_cons] at hlen
      omega
    · exact (applyFailingCalls_open ts _ hst (by omega)).1

/-- C1: a CLOSED breaker reaches OPEN after `failure_threshold` consecutive
failing calls, and while OPEN with the recovery timeout not yet elapsed a
call raises the circuit-open exception without invoking the operation and
without touching the breaker's state or counters. -/
theorem claim_C1 :
    (∀ (cb : CircuitBreaker) (ts : List ℚ),
        cb.state = CircuitBreakerState.closed →
        1 ≤ cb.failure_threshold →
        ts.length = cb.failure_threshold →
        (applyFailingCalls cb ts).state = CircuitBreakerState.open_) ∧
    (∀ (α : Type) (cb : CircuitBreaker) (now t : ℚ) (op : CallOutcome α),
        cb.state = CircuitBreakerState.open_ →
        cb.last_failure_time = some t →
        now - t < cb.recovery_timeout →
        (cb.call now op).result = Except.error "Circuit breaker is OPEN" ∧
        (cb.call now op).invoked = false ∧
        (cb.call now op).breaker = cb) := by
  constructor
  · intro cb ts hst hth hlen
    refine applyFailingCalls_opens ts cb hst (by omega) ?_
    intro he
    subst he
    simp at hlen
    omega
  · intro α cb now t op hst hlf hlt
    have hres : cb.should_attempt_reset now = false := by
      simp only [CircuitBreaker.should_attempt_reset, hlf]
      simp only [decide_eq_false_iff_not, not_le]
      linarith
    simp [CircuitBreaker.call, hst, hres]

/-- Witness for C1 at a concrete breaker: threshold 2 reached after two
failing calls; a rejected call while OPEN before the timeout. -/
theorem claim_C1_witness :
    (applyFailingCalls { failure_threshold := 2 } [0, 1]).state
      = CircuitBreakerState.open_ ∧
    (({ state := CircuitBreakerState.open_, failure_count := 5,
        last_failure_time := some 10 } : CircuitBreaker).call 20
          (CallOutcome.success (0 : Nat))).result
      = Except.error "Circuit breaker is OPEN" ∧
    (({ state := CircuitBreakerState.open_, failure_count := 5,
        last_failure_time := some 10 } : CircuitBreaker).call 20
          (CallOutcome.success (0 : Nat))).invoked = false := by
  refine ⟨claim_C1.1 { failure_threshold := 2 } [0, 1] rfl (by decide) rfl, ?_, ?_⟩
  · exact (claim_C1.2 Nat _ 20 10 (CallOutcome.success 0) rfl rfl (by norm_num)).1
  · exact (claim_C1.2 Nat _ 20 10 (CallOutcome.success 0) rfl rfl (by norm_num)).2.1

/-- C2 counterexample: a reachable HALF_OPEN breaker with
`success_count = 1` moves to OPEN on a single failure, but its
`success_count` stays 1 — the transition to OPEN does not clear it. -/
theorem claim_C2_counterexample :
    ((runTrace { failure_threshold := 1 }
        [(0, CallOutcome.failure "e1"), (100, CallOutcome.success ())]).state
      = CircuitBreakerState.halfOpen) ∧
    ((runTrace { failure_threshold := 1 }
        [(0, CallOutcome.failure "e1"), (100, CallOutcome.success ())]).success_count = 1) ∧
    ((runTrace { failure_threshold := 1 }
        [(0, CallOutcome.failure "e1"), (100, CallOutcome.success ()),
         (101, CallOutcome.failure "e2")]).state = CircuitBreakerState.open_) ∧
    ((runTrace { failure_threshold := 1 }
        [(0, CallOutcome.failure "e1"), (100, CallOutcome.success ()),
         (101, CallOutcome.failure "e2")]).success_count = 1) := by
  norm_num [runTrace, CircuitBreaker.call, CircuitBreaker.invoke,
    CircuitBreaker.record_failure, CircuitBreaker.should_attempt_reset,
    CircuitBreaker.reset]
  decide

/-- One call preserves the invariant "OPEN or HALF_OPEN implies the
failure count has reached the threshold". -/
theorem call_preserves_countInv (cb : CircuitBreaker) (t : ℚ) (op : CallOutcome Unit)
    (h : cb.state = CircuitBreakerState.open_ ∨ cb.state = CircuitBreakerState.halfOpen →
         cb.failure_threshold ≤ cb.failure_count) :
    (cb.call t op).breaker.state = CircuitBreakerState.open_ ∨
      (cb.call t op).breaker.state = CircuitBreakerState.halfOpen →
    (cb.call t op).breaker.failure_threshold ≤ (cb.call t op).breaker.failure_count := by
  rcases hst : cb.state <;> cases op <;>
    simp only [CircuitBreaker.call, CircuitBreaker.invoke, CircuitBreaker.record_failure,
      CircuitBreaker.reset, hst] <;>
    simp_all only [] <;>
    split_ifs <;> simp_all <;> omega

/-- Along any call trace, the invariant of `call_preserves_countInv`
is maintained. -/
theorem runTrace_countInv (events : List (ℚ × CallOutcome Unit)) :
    ∀ cb : CircuitBreaker,
      (cb.state = CircuitBreakerState.open_ ∨ cb.state = CircuitBreakerState.halfOpen →
        cb.failure_threshold ≤ cb.failure_count) →
      ((runTrace cb events).state = CircuitBreakerState.open_ ∨
        (runTrace cb events).state = CircuitBreakerState.halfOpen →
        (runTrace cb events).failure_threshold ≤ (runTrace cb events).failure_count) := by
  induction events with
  | nil => intro cb h; exact h
  | cons e es ih =>
    intro cb h
    exact ih _ (call_preserves_countInv cb e.1 e.2 h)

/-- C2 (amended): in every reachable HALF_OPEN state a single failing
call moves the breaker to OPEN, and the transition leaves
`success_count` unchanged (it is cleared when entering HALF_OPEN and on
full reset, not on the transition to OPEN). -/
theorem claim_C2_amended (cb0 : CircuitBreaker) (events : List (ℚ × CallOutcome Unit))
    (t : ℚ) (msg : String)
    (hinit : cb0.state = CircuitBreakerState.closed)
    (hho : (runTrace cb0 events).state = CircuitBreakerState.halfOpen) :
    ((runTrace cb0 events).call t (CallOutcome.failure msg : CallOutcome Unit)).breaker.state
        = CircuitBreakerState.open_ ∧
    ((runTrace cb0 events).call t
        (CallOutcome.failure msg : CallOutcome Unit)).breaker.success_count
        = (runTrace cb0 events).success_count := by
  have hcnt : (runTrace cb0 events).failure_threshold ≤ (runTrace cb0 events).failure_count := by
    refine runTrace_countInv events cb0 ?_ (Or.inr hho)
    intro hc
    rcases hc with hc | hc <;> rw [hinit] at hc <;> simp at hc
  simp only [CircuitBreaker.call, CircuitBreaker.invoke, CircuitBreaker.record_failure, hho]
  split_ifs <;> simp_all <;> omega

/-- Witness for C2 (amended) at the concrete reachable trace of the
counterexample. -/
theorem claim_C2_amended_witness :
    ((runTrace { failure_threshold := 1 }
        [(0, CallOutcome.failure "e1"), (100, CallOutcome.success ())]).call 101
        (CallOutcome.failure "e2" : CallOutcome Unit)).breaker.state
      = CircuitBreakerState.open_ ∧
    ((runTrace { failure_threshold := 1 }
        [(0, CallOutcome.failure "e1"), (100, CallOutcome.success ())]).call 101
        (CallOutcome.failure "e2" : CallOutcome Unit)).breaker.success_count
      = (runTrace { failure_threshold := 1 }
          [(0, CallOutcome.failure "e1"), (100, CallOutcome.success ())]).success_count :=
  claim_C2_amended { failure_threshold := 1 }
    [(0, CallOutcome.failure "e1"), (100, CallOutcome.success ())] 101 "e2" rfl
    (by norm_num [runTrace, CircuitBreaker.call, CircuitBreaker.invoke,
      CircuitBreaker.record_failure, CircuitBreaker.should_attempt_reset,
      CircuitBreaker.reset])

/-- C10: the constructor pre-registers exactly the seven critical
components, all STANDBY, each with a default-configured circuit breaker,
and a fresh system reports 7 total components, overall status HEALTHY and
health score 0. -/
theorem claim_C10 :
    FallbackSystem.init.components.map Prod.fst = critical_components ∧
    FallbackSystem.init.components.all
      (fun p => decide (p.2.status = ComponentStatus.standby)) = true ∧
    FallbackSystem.init.circuit_breakers.map Prod.fst = critical_components ∧
    FallbackSystem.init.circuit_breakers.all
      (fun p => decide (p.2 = ({} : CircuitBreaker))) = true ∧
    (∀ now : ℚ,
      (FallbackSystem.init.get_system_health now).total_components = 7 ∧
      (FallbackSystem.init.get_system_health now).overall_status = SystemStatus.healthy ∧
      (FallbackSystem.init.get_system_health now).health_score = 0) := by
  refine ⟨by decide, by decide, by decide, by decide, ?_⟩
  intro now
  refine ⟨rfl, rfl, ?_⟩
  norm_num [FallbackSystem.get_system_health, FallbackSystem.init, critical_components]
  decide

/-- C6: with at least one registered component, overall status is HEALTHY
iff no component is FAILED; in the presence of failed components the
status is CRITICAL when the failed fraction exceeds one half and DEGRADED
otherwise; and the health score is active/total*100. -/
theorem claim_C6 (sys : FallbackSystem) (now : ℚ) (h : sys.components ≠ []) :
    ((sys.get_system_health now).overall_status = SystemStatus.healthy ↔
      ∀ p ∈ sys.components, p.2.status ≠ ComponentStatus.failed) ∧
    (0 < (sys.components.filter
        (fun c => decide (c.2.status = ComponentStatus.failed))).length →
      (sys.get_system_health now).overall_status =
        (if ((sys.components.filter
              (fun c => decide (c.2.status = ComponentStatus.failed))).length : ℚ) /
             (sys.components.length : ℚ) > 1/2
         then SystemStatus.critical else SystemStatus.degraded)) ∧
    (sys.get_system_health now).health_score =
      ((sys.components.filter
          (fun c => decide (c.2.status = ComponentStatus.active))).length : ℚ) /
        (sys.components.length : ℚ) * 100 := by
  have htot : 0 < sys.components.length := List.length_pos.mpr h
  simp only [FallbackSystem.get_system_health]
  refine ⟨?_, ?_, ?_⟩
  · by_cases h0 : (sys.components.filter
        (fun c => decide (c.2.status = ComponentStatus.failed))).length = 0
    · rw [if_pos h0]
      simp only [List.length_eq_zero, List.filter_eq_nil] at h0
      constructor
      · intro _ p hp
        simpa using h0 p hp
      · intro _
        rfl
    · rw [if_neg h0]
      constructor
      · intro hc
        split_ifs at hc <;> simp_all <;> try assumption
      · intro hall
        exfalso
        apply h0
        simp only [List.length_eq_zero, List.filter_eq_nil]
        intro p hp
        simpa using hall p hp
  · intro hpos
    rw [if_neg (Nat.pos_iff_ne_zero.mp hpos)]
    split_ifs with hr
    · rfl
    · rfl
  · rw [if_pos htot]

/-- Witness for C6 at the fresh seven-component system. -/
theorem claim_C6_witness :
    (FallbackSystem.init.get_system_health 0).overall_status = SystemStatus.healthy ∧
    (FallbackSystem.init.get_system_health 0).health_score =
      ((FallbackSystem.init.components.filter
          (fun c => decide (c.2.status = ComponentStatus.active))).length : ℚ) /
        (FallbackSystem.init.components.length : ℚ) * 100 := by
  refine ⟨?_, (claim_C6 FallbackSystem.init 0 (by decide)).2.2⟩
  exact (claim_C6 FallbackSystem.init 0 (by decide)).1.mpr (by decide)

/-- C3: when the guarded primary fails and some fallback succeeds,
`execute_with_fallback` returns the first succeeding fallback's value and
books a health success on the component: `total_requests` and
`successful_requests` up by one, `consecutive_failures` reset to 0,
`last_success` stamped now. -/
theorem claim_C3 {α : Type} (sys : FallbackSystem) (now : ℚ) (primary : CallOutcome α)
    (fallbacks : List (CallOutcome α)) (name : String) (cb : CircuitBreaker)
    (comp : ComponentState) (v : α) (e : String)
    (hcb : sys.circuit_breakers.lookup name = some cb)
    (hcomp : sys.components.lookup name = some comp)
    (hfail : (cb.call now primary).result = Except.error e)
    (hfb : firstFallbackSuccess fallbacks = some v) :
    (sys.execute_with_fallback now primary fallbacks name).1 = Except.ok v ∧
    ((sys.execute_with_fallback now primary fallbacks name).2.components.lookup name).map
        (fun c => c.health_metrics.total_requests)
      = some (comp.health_metrics.total_requests + 1) ∧
    ((sys.execute_with_fallback now primary fallbacks name).2.components.lookup name).map
        (fun c => c.health_metrics.successful_requests)
      = some (comp.health_metrics.successful_requests + 1) ∧
    ((sys.execute_with_fallback now primary fallbacks name).2.components.lookup name).map
        (fun c => c.health_metrics.consecutive_failures) = some 0 ∧
    ((sys.execute_with_fallback now primary fallbacks name).2.components.lookup name).map
        (fun c => c.health_metrics.last_success) = some (some now) := by
  simp only [FallbackSystem.execute_with_fallback, hcb, hfail, hfb,
    FallbackSystem.update_component_health, hcomp]
  simp [lookup_updateAssoc_self, hcomp]

/-- Witness for C3: on the sample system, a failing primary with a
failing first fallback and a succeeding second fallback. -/
theorem claim_C3_witness :
    (sampleSystem.execute_with_fallback 5 (CallOutcome.failure "boom" : CallOutcome Nat)
        [CallOutcome.failure "fb1", CallOutcome.success 42] "c").1 = Except.ok 42 ∧
    ((sampleSystem.execute_with_fallback 5 (CallOutcome.failure "boom" : CallOutcome Nat)
        [CallOutcome.failure "fb1", CallOutcome.success 42] "c").2.components.lookup
        "c").map (fun c => c.health_metrics.total_requests) = some 1 ∧
    ((sampleSystem.execute_with_fallback 5 (CallOutcome.failure "boom" : CallOutcome Nat)
        [CallOutcome.failure "fb1", CallOutcome.success 42] "c").2.components.lookup
        "c").map (fun c => c.health_metrics.consecutive_failures) = some 0 := by
  have h := claim_C3 sampleSystem 5 (CallOutcome.failure "boom" : CallOutcome Nat)
    [CallOutcome.failure "fb1", CallOutcome.success 42] "c" {}
    { name := "c", status := ComponentStatus.standby } 42 "boom"
    rfl rfl rfl rfl
  exact ⟨h.1, h.2.1, h.2.2.2.1⟩

/-- C4 counterexample: primary failing and no fallbacks — the call
re-raises the primary error and appends one event, but `total_requests`
stays 0 where the claim requires it to be incremented to 1 (the all-fail
path never touches the request counters). -/
theorem claim_C4_counterexample :
    (sampleSystem.execute_with_fallback 5 (CallOutcome.failure "boom" : CallOutcome Nat)
        [] "c").1 = Except.error "boom" ∧
    (sampleSystem.execute_with_fallback 5 (CallOutcome.failure "boom" : CallOutcome Nat)
        [] "c").2.failure_history.length = 1 ∧
    ((sampleSystem.execute_with_fallback 5 (CallOutcome.failure "boom" : CallOutcome Nat)
        [] "c").2.components.lookup "c").map
        (fun c => c.health_metrics.total_requests) = some 0 ∧
    ((sampleSystem.execute_with_fallback 5 (CallOutcome.failure "boom" : CallOutcome Nat)
        [] "c").2.components.lookup "c").map
        (fun c => c.health_metrics.consecutive_failures) = some 1 := by
  decide

/-- C4 (amended): when the guarded primary and every fallback fail, the
call re-raises the primary's error, appends exactly one new FailureEvent
(UNKNOWN, "All functions failed: <primary error>", severity "error",
unresolved), sets the component FAILED, increments
`consecutive_failures` and stamps `last_failure`; `total_requests` and
`successful_requests` are left unchanged (this path performs no request
bookkeeping). -/
theorem claim_C4_amended {α : Type} (sys : FallbackSystem) (now : ℚ)
    (primary : CallOutcome α) (fallbacks : List (CallOutcome α)) (name : String)
    (cb : CircuitBreaker) (comp : ComponentState) (e : String)
    (hcb : sys.circuit_breakers.lookup name = some cb)
    (hcomp : sys.components.lookup name = some comp)
    (hfail : (cb.call now primary).result = Except.error e)
    (hfb : firstFallbackSuccess fallbacks = none) :
    (sys.execute_with_fallback now primary fallbacks name).1 = Except.error e ∧
    (sys.execute_with_fallback now primary fallbacks name).2.failure_history =
      sys.failure_history ++
        [{ component := name, failure_type := FailureType.unknown, timestamp := now,
           error_message := "All functions failed: " ++ e, severity := "error" }] ∧
    ((sys.execute_with_fallback now primary fallbacks name).2.components.lookup name).map
        (fun c => c.status) = some ComponentStatus.failed ∧
    ((sys.execute_with_fallback now primary fallbacks name).2.components.lookup name).map
        (fun c => c.health_metrics.consecutive_failures)
      = some (comp.health_metrics.consecutive_failures + 1) ∧
    ((sys.execute_with_fallback now primary fallbacks name).2.components.lookup name).map
        (fun c => c.health_metrics.last_failure) = some (some now) ∧
    ((sys.execute_with_fallback now primary fallbacks name).2.components.lookup name).map
        (fun c => c.health_metrics.total_requests)
      = some comp.health_metrics.total_requests ∧
    ((sys.execute_with_fallback now primary fallbacks name).2.components.lookup name).map
        (fun c => c.health_metrics.successful_requests)
      = some comp.health_metrics.successful_requests := by
  simp only [FallbackSystem.execute_with_fallback, hcb, hfail, hfb,
    FallbackSystem.report_component_failure, hcomp]
  simp [lookup_updateAssoc_self, hcomp]

/-- Witness for C4 (amended) on the sample system. -/
theorem claim_C4_amended_witness :
    (sampleSystem.execute_with_fallback 5 (CallOutcome.failure "boom" : CallOutcome Nat)
        [CallOutcome.failure "fb1"] "c").1 = Except.error "boom" ∧
    ((sampleSystem.execute_with_fallback 5 (CallOutcome.failure "boom" : CallOutcome Nat)
        [CallOutcome.failure "fb1"] "c").2.components.lookup "c").map
        (fun c => c.health_metrics.last_failure) = some (some 5) := by
  have h := claim_C4_amended sampleSystem 5 (CallOutcome.failure "boom" : CallOutcome Nat)
    [CallOutcome.failure "fb1"] "c" {} { name := "c", status := ComponentStatus.standby }
    "boom" rfl rfl rfl rfl
  exact ⟨h.1, h.2.2.2.2.1⟩

/-- C5 counterexample: failure reports append events even for unregistered
components, but `report_component_recovery` for an unregistered name
resolves nothing — the matching unresolved event stays unresolved, against
the claim's "for every component name". -/
theorem claim_C5_counterexample :
    ((FallbackSystem.init.report_component_failure 3 "ghost" FailureType.unknown
        "g down" "error").report_component_recovery 7 "ghost").failure_history.map
      (fun e => (e.component, e.resolved)) = [("ghost", false)] := by
  decide

/-- The scan `resolveFirst` is the identity when no event of the component is
unresolved. -/
theorem resolveFirst_of_no_match (name : String) (now : ℚ) (h : List FailureEvent)
    (hnone : ∀ x ∈ h, ¬(x.component = name ∧ ¬x.resolved)) :
    resolveFirst name now h = h := by
  induction h with
  | nil => rfl
  | cons e rest ih =>
    have he := hnone e (List.mem_cons_self e rest)
    rw [resolveFirst, if_neg he, ih (fun x hx => hnone x (List.mem_cons_of_mem e hx))]

/-- The scan `resolveFirst` marks the head of the suffix that starts at the first
matching unresolved event, and touches nothing else. -/
theorem resolveFirst_of_first_match (name : String) (now : ℚ)
    (pre post : List FailureEvent) (e : FailureEvent)
    (hpre : ∀ x ∈ pre, ¬(x.component = name ∧ ¬x.resolved))
    (hc : e.component = name) (hr : e.resolved = false) :
    resolveFirst name now (pre ++ e :: post) = pre ++ markResolved now e :: post := by
  induction pre with
  | nil =>
    simp only [List.nil_append]
    rw [resolveFirst, if_pos ⟨hc, by simp [hr]⟩]
    rfl
  | cons x xs ih =>
    have hx := hpre x (List.mem_cons_self x xs)
    simp only [List.cons_append]
    rw [resolveFirst, if_neg hx, ih (fun y hy => hpre y (List.mem_cons_of_mem x hy))]

/-- C5 (amended): for every *registered* component, one recovery report
resolves exactly the first unresolved event of that component in
`failure_history` (stamping `resolution_time := now`) and leaves every
other event untouched; when no unresolved event of the component exists,
the history is unchanged. -/
theorem claim_C5_amended (sys : FallbackSystem) (now : ℚ) (name : String)
    (hreg : (sys.components.lookup name).isSome = true) :
    ((∀ x ∈ sys.failure_history, ¬(x.component = name ∧ ¬x.resolved)) →
      (sys.report_component_recovery now name).failure_history = sys.failure_history) ∧
    (∀ pre e post, sys.failure_history = pre ++ e :: post →
      (∀ x ∈ pre, ¬(x.component = name ∧ ¬x.resolved)) →
      e.component = name → e.resolved = false →
      (sys.report_component_recovery now name).failure_history =
        pre ++ markResolved now e :: post) := by
  have hh : (sys.report_component_recovery now name).failure_history =
      resolveFirst name now sys.failure_history := by
    rw [FallbackSystem.report_component_recovery, if_pos hreg]
  constructor
  · intro hnone
    rw [hh, resolveFirst_of_no_match name now _ hnone]
  · intro pre e post hsplit hpre hc hr
    rw [hh, hsplit, resolveFirst_of_first_match name now pre post e hpre hc hr]

/-- Witness for C5 (amended): two unresolved events for the sample
component; one recovery resolves only the first. -/
theorem claim_C5_amended_witness :
    (((sampleSystem.report_component_failure 1 "c" FailureType.unknown "x"
        "error").report_component_failure 2 "c" FailureType.unknown "y"
        "error").report_component_recovery 9 "c").failure_history =
      [markResolved 9 sampleEventX, sampleEventY] := by
  have h := (claim_C5_amended ((sampleSystem.report_component_failure 1 "c"
      FailureType.unknown "x" "error").report_component_failure 2 "c"
      FailureType.unknown "y" "error") 9 "c" (by decide)).2 []
    sampleEventX [sampleEventY] rfl (by simp) rfl rfl
  simpa using h

/-- The recovery callable is invoked at most
`max_recovery_attempts - recovery_attempts` more times along a chain
(or the chain performs no invocation at all past the cap). -/
theorem chain_count_le (now : ℚ) (name : String) (outcomes : Nat → RecoveryOutcome) :
    ∀ (fuel k : Nat) (sys : FallbackSystem) (c : ComponentState),
      sys.components.lookup name = some c →
      (attemptRecoveryChain now name outcomes fuel k sys).2 + c.recovery_attempts ≤
          sys.max_recovery_attempts ∨
        (attemptRecoveryChain now name outcomes fuel k sys).2 = 0 := by
  intro fuel
  induction fuel with
  | zero =>
    intro k sys c hc
    right
    rfl
  | succ fuel ih =>
    intro k sys c hc
    have hlk : (updateAssoc name (fun c => { c with status := ComponentStatus.recovering }) (updateAssoc name (fun c => { c with recovery_attempts := c.recovery_attempts + 1 }) sys.components)).lookup name = some ({ c with status := ComponentStatus.recovering, recovery_attempts := c.recovery_attempts + 1 } : ComponentState) := by
      rw [lookup_updateAssoc_self, lookup_updateAssoc_self, hc]
      rfl
    simp only [attemptRecoveryChain, FallbackSystem.attempt_recovery_step, hc]
    by_cases hcap : c.recovery_attempts + 1 > sys.max_recovery_attempts
    · rw [if_pos hcap]
      right
      rfl
    · rw [if_neg hcap]
      by_cases hrf : c.has_recovery_func = true
      · rw [if_pos hrf]
        cases houtk : outcomes k with
        | success =>
          left
          simp
          omega
        | failure =>
          rcases ih (k + 1) { sys with components := updateAssoc name (fun c => { c with status := ComponentStatus.recovering }) (updateAssoc name (fun c => { c with recovery_attempts := c.recovery_attempts + 1 }) sys.components) } _ hlk with h | h <;> (try dsimp only at h ⊢) <;> (try simp at h) <;> omega
        | raised =>
          rcases ih (k + 1) { sys with components := updateAssoc name (fun c => { c with status := ComponentStatus.recovering }) (updateAssoc name (fun c => { c with recovery_attempts := c.recovery_attempts + 1 }) sys.components) } _ hlk with h | h <;> (try dsimp only at h ⊢) <;> (try simp at h) <;> omega
      · rw [if_neg hrf]
        right
        rfl

/-- When the recovery callable first succeeds at the (j+1)-th invocation
and the attempt cap is not yet reached, the chain performs exactly j+1
invocations, reports recovery (status ACTIVE) and clears
`recovery_attempts`. -/
theorem chain_first_success (now : ℚ) (name : String) (outcomes : Nat → RecoveryOutcome) :
    ∀ (j fuel k : Nat) (sys : FallbackSystem) (c : ComponentState),
      sys.components.lookup name = some c →
      c.has_recovery_func = true →
      (∀ i, i < j → outcomes (k + i) ≠ RecoveryOutcome.success) →
      outcomes (k + j) = RecoveryOutcome.success →
      c.recovery_attempts + j + 1 ≤ sys.max_recovery_attempts →
      j + 1 ≤ fuel →
      (attemptRecoveryChain now name outcomes fuel k sys).2 = j + 1 ∧
      ((attemptRecoveryChain now name outcomes fuel k sys).1.components.lookup name).map
        (fun x => (x.status, x.recovery_attempts)) =
        some (ComponentStatus.active, 0) := by
  intro j
  induction j with
  | zero =>
    intro fuel k sys c hc hrf _ hsucc hcap hfuel
    cases fuel with
    | zero => omega
    | succ fuel =>
      have hk : outcomes k = RecoveryOutcome.success := by simpa using hsucc
      have hlk : (updateAssoc name (fun c => { c with status := ComponentStatus.recovering }) (updateAssoc name (fun c => { c with recovery_attempts := c.recovery_attempts + 1 }) sys.components)).lookup name = some ({ c with status := ComponentStatus.recovering, recovery_attempts := c.recovery_attempts + 1 } : ComponentState) := by
        rw [lookup_updateAssoc_self, lookup_updateAssoc_self, hc]
        rfl
      simp only [attemptRecoveryChain, FallbackSystem.attempt_recovery_step, hc]
      rw [if_neg (by omega), if_pos hrf, hk]
      dsimp only
      constructor
      · rfl
      · rw [FallbackSystem.report_component_recovery]
        rw [if_pos (by rw [hlk]; rfl)]
        dsimp only
        rw [lookup_updateAssoc_self, lookup_updateAssoc_self, hlk]
        rfl
  | succ j ih =>
    intro fuel k sys c hc hrf hne hsucc hcap hfuel
    cases fuel with
    | zero => omega
    | succ fuel =>
      have hk : outcomes k ≠ RecoveryOutcome.success := by
        simpa using hne 0 (Nat.succ_pos j)
      have hlk : (updateAssoc name (fun c => { c with status := ComponentStatus.recovering }) (updateAssoc name (fun c => { c with recovery_attempts := c.recovery_attempts + 1 }) sys.components)).lookup name = some ({ c with status := ComponentStatus.recovering, recovery_attempts := c.recovery_attempts + 1 } : ComponentState) := by
        rw [lookup_updateAssoc_self, lookup_updateAssoc_self, hc]
        rfl
      have hrec := ih fuel (k + 1) { sys with components := updateAssoc name (fun c => { c with status := ComponentStatus.recovering }) (updateAssoc name (fun c => { c with recovery_attempts := c.recovery_attempts + 1 }) sys.components) } ({ c with status := ComponentStatus.recovering, recovery_attempts := c.recovery_attempts + 1 } : ComponentState) hlk hrf
        (by intro i hi; have := hne (i + 1) (by omega); simpa [Nat.add_assoc, Nat.add_comm 1 i] using this)
        (by have := hsucc; simpa [Nat.add_assoc, Nat.add_comm 1 j] using this)
        (by dsimp only; omega) (by omega)
      simp only [attemptRecoveryChain, FallbackSystem.attempt_recovery_step, hc]
      rw [if_neg (by omega), if_pos hrf]
      cases hout : outcomes k with
      | success => exact absurd hout hk
      | failure =>
        dsimp only
        exact ⟨by rw [hrec.1], hrec.2⟩
      | raised =>
        dsimp only
        exact ⟨by rw [hrec.1], hrec.2⟩

/-- C7: a recovery chain started with `recovery_attempts = 0` invokes the
recovery callable at most `max_recovery_attempts` times; and when the
first success comes at invocation j+1 with j below the cap (and a
recovery callable is attached), the chain performs exactly j+1
invocations, reports recovery (component ACTIVE) and resets
`recovery_attempts` to 0.  Termination is inherent: `recovery_chain` is a
total function. -/
theorem claim_C7 (sys : FallbackSystem) (now : ℚ) (name : String)
    (outcomes : Nat → RecoveryOutcome) (c : ComponentState)
    (hc : sys.components.lookup name = some c)
    (h0 : c.recovery_attempts = 0) :
    (sys.recovery_chain now name outcomes).2 ≤ sys.max_recovery_attempts ∧
    (∀ j, j < sys.max_recovery_attempts → c.has_recovery_func = true →
      (∀ i, i < j → outcomes i ≠ RecoveryOutcome.success) →
      outcomes j = RecoveryOutcome.success →
      (sys.recovery_chain now name outcomes).2 = j + 1 ∧
      ((sys.recovery_chain now name outcomes).1.components.lookup name).map
        (fun x => (x.status, x.recovery_attempts)) =
        some (ComponentStatus.active, 0)) := by
  constructor
  · simp only [FallbackSystem.recovery_chain]
    rcases chain_count_le now name outcomes (sys.max_recovery_attempts + 1) 0 sys c hc
      with h | h <;> omega
  · intro j hj hrf hne hsucc
    refine chain_first_success now name outcomes j (sys.max_recovery_attempts + 1) 0 sys c
      hc hrf ?_ ?_ (by omega) (by omega)
    · intro i hi
      simpa using hne i hi
    · simpa using hsucc

/-- Witness for C7: recovery fails once then succeeds; the chain makes
exactly two invocations and ends with the component ACTIVE and the
counter reset. -/
theorem claim_C7_witness :
    (sampleRecoverySystem.recovery_chain 5 "c"
        (fun n => if n = 0 then RecoveryOutcome.failure else RecoveryOutcome.success)).2
      = 2 ∧
    ((sampleRecoverySystem.recovery_chain 5 "c"
        (fun n => if n = 0 then RecoveryOutcome.failure else RecoveryOutcome.success)).1.components.lookup
        "c").map (fun x => (x.status, x.recovery_attempts)) =
      some (ComponentStatus.active, 0) := by
  have h := (claim_C7 sampleRecoverySystem 5 "c"
    (fun n => if n = 0 then RecoveryOutcome.failure else RecoveryOutcome.success)
    sampleRecoveryComponent rfl rfl).2 1 (by decide) rfl (by decide) rfl
  exact h

/-- C8 counterexample: a component with a health check whose status is
STANDBY and whose check returns true is in the claim's "other
combination", yet the cycle is not a no-op — it stamps `last_check`. -/
theorem claim_C8_counterexample :
    ((sampleMonitorSystem.health_monitoring_cycle 5
        (fun _ => HealthResult.healthy)).components.lookup "c").map
      (fun c => c.last_check) = some (some 5) ∧
    (sampleMonitorSystem.components.lookup "c").map (fun c => c.last_check) =
      some none := by
  decide

/-- C8 (amended): per component with an attached health check — a raising
check leaves the system entirely unchanged; false while ACTIVE invokes
`report_component_failure(name, UNKNOWN, "Health check failed",
"warning")` and true while FAILED invokes `report_component_recovery`,
both on the state with `last_check` stamped; in every other combination
the only change is stamping `last_check := now` (the failure history is
untouched). -/
theorem claim_C8_amended (sys : FallbackSystem) (now : ℚ)
    (results : String → HealthResult) (name : String) (c : ComponentState)
    (hc : sys.components.lookup name = some c)
    (hhc : c.has_health_check = true) :
    (results name = HealthResult.raised →
      sys.health_check_component now results name = sys) ∧
    (results name = HealthResult.healthy → c.status = ComponentStatus.failed →
      sys.health_check_component now results name =
        ({ sys with components := updateAssoc name (fun x => { x with last_check := some now }) sys.components } : FallbackSystem).report_component_recovery now name) ∧
    (results name = HealthResult.unhealthy → c.status = ComponentStatus.active →
      sys.health_check_component now results name =
        ({ sys with components := updateAssoc name (fun x => { x with last_check := some now }) sys.components } : FallbackSystem).report_component_failure now name FailureType.unknown "Health check failed" "warning") ∧
    (results name ≠ HealthResult.raised →
      ¬(results name = HealthResult.healthy ∧ c.status = ComponentStatus.failed) →
      ¬(results name = HealthResult.unhealthy ∧ c.status = ComponentStatus.active) →
      (sys.health_check_component now results name).failure_history =
        sys.failure_history ∧
      (sys.health_check_component now results name).components =
        updateAssoc name (fun x => { x with last_check := some now }) sys.components) := by
  refine ⟨?_, ?_, ?_, ?_⟩
  · intro hres
    simp only [FallbackSystem.health_check_component, hc, hhc, hres, if_true]
  · intro hres hst
    simp only [FallbackSystem.health_check_component, hc, hhc, hres, if_true]
    rw [if_pos ⟨trivial, hst⟩]
  · intro hres hst
    simp only [FallbackSystem.health_check_component, hc, hhc, hres, if_true]
    rw [if_neg (by simp), if_pos ⟨trivial, hst⟩]
  · intro hraise hnh hnu
    cases hres : results name with
    | raised => exact absurd hres hraise
    | healthy =>
      have hst : c.status ≠ ComponentStatus.failed := fun h => hnh ⟨hres, h⟩
      simp only [FallbackSystem.health_check_component, hc, hhc, hres, if_true]
      rw [if_neg (fun h => hst h.2), if_neg (by simp)]
      exact ⟨rfl, rfl⟩
    | unhealthy =>
      have hst : c.status ≠ ComponentStatus.active := fun h => hnu ⟨hres, h⟩
      simp only [FallbackSystem.health_check_component, hc, hhc, hres, if_true]
      rw [if_neg (by simp), if_neg (fun h => hst h.2)]
      exact ⟨rfl, rfl⟩

/-- Witness for C8 (amended): healthy result on a STANDBY component —
only `last_check` changes. -/
theorem claim_C8_amended_witness :
    (sampleMonitorSystem.health_check_component 5 (fun _ => HealthResult.healthy)
        "c").failure_history = sampleMonitorSystem.failure_history ∧
    (sampleMonitorSystem.health_check_component 5 (fun _ => HealthResult.healthy)
        "c").components =
      updateAssoc "c" (fun x => { x with last_check := some (5 : ℚ) })
        sampleMonitorSystem.components := by
  exact (claim_C8_amended sampleMonitorSystem 5 (fun _ => HealthResult.healthy) "c"
    sampleMonitorComponent rfl rfl).2.2.2 (by decide) (by decide) (by decide)

/-- C9 counterexample: with a single failure whose timestamp equals now,
`total_time` is 0; the source's guard returns 100.0, while the claim's
formula — which has no such guard — would clamp the (degenerate,
division-by-zero) expression to 0. -/
theorem claim_C9_counterexample :
    ({ failure_history := [sampleEventX] } : FallbackSystem).calculate_uptime_percentage 1
      = 100 ∧
    uptime_percentage_claimed ({ failure_history := [sampleEventX] } : FallbackSystem) 1
      = 0 := by
  constructor
  · norm_num [FallbackSystem.calculate_uptime_percentage, sampleEventX]
  · norm_num [uptime_percentage_claimed, sampleEventX, sortByTimestamp,
      insertByTimestamp, downtimeLoop]

/-- C9 (amended): `_calculate_uptime_percentage` returns 100.0 for an
empty history; for a non-empty history it also returns 100.0 whenever
`total_time = now - earliest timestamp <= 0`, and otherwise it equals the
claim's walk: downtime accumulated over the sorted history through a
single global window, with the result
`clamp ((total_time - downtime) / total_time * 100) [0, 100]`. -/
theorem claim_C9_amended (sys : FallbackSystem) (now : ℚ) :
    (sys.failure_history = [] → sys.calculate_uptime_percentage now = 100) ∧
    (∀ f0 rest, sys.failure_history = f0 :: rest →
      (now - (rest.map (·.timestamp)).foldl min f0.timestamp ≤ 0 →
        sys.calculate_uptime_percentage now = 100) ∧
      (0 < now - (rest.map (·.timestamp)).foldl min f0.timestamp →
        sys.calculate_uptime_percentage now = uptime_percentage_claimed sys now)) := by
  constructor
  · intro he
    simp only [FallbackSystem.calculate_uptime_percentage, he]
  · intro f0 rest hsplit
    constructor
    · intro hle
      simp only [FallbackSystem.calculate_uptime_percentage, hsplit]
      rw [if_pos hle]
    · intro hgt
      simp only [FallbackSystem.calculate_uptime_percentage,
        uptime_percentage_claimed, hsplit]
      rw [if_neg (not_le.mpr hgt)]

/-- Witness for C9 (amended): an unresolved failure at t=0 then one
resolved at t=60 gives total_time 100, downtime 60 and uptime 40%,
agreeing with the claim's formula. -/
theorem claim_C9_amended_witness :
    ({ failure_history := [sampleOpenEvent, sampleCloseEvent] } :
        FallbackSystem).calculate_uptime_percentage 100 =
      uptime_percentage_claimed
        ({ failure_history := [sampleOpenEvent, sampleCloseEvent] } : FallbackSystem)
        100 ∧
    uptime_percentage_claimed
        ({ failure_history := [sampleOpenEvent, sampleCloseEvent] } : FallbackSystem)
        100 = 40 := by
  constructor
  · exact ((claim_C9_amended { failure_history := [sampleOpenEvent, sampleCloseEvent] }
      100).2 sampleOpenEvent [sampleCloseEvent] rfl).2
      (by norm_num [sampleOpenEvent, sampleCloseEvent])
  · norm_num [uptime_percentage_claimed, sampleOpenEvent, sampleCloseEvent,
      sortByTimestamp, insertByTimestamp, downtimeLoop]

end Fallback
